import Mathlib

/-!
# React docs notes: the `TodoList` and `Gallery` components

A shallow embedding of the two `App.js` files under `Describing the UI`.

A JSX expression evaluates to an element: a tag, the attributes in the order
they are written, and the children. JSX text that consists only of whitespace
containing a line break produces no child, so the children of `<div>`, `<ul>`
and `<section>` are exactly the nested elements. In `<h1>{person.name}'s Todos</h1>`
the braces and the text that follows them are two children of the `h1`.
A component used as a tag (`<Profile />`) is rendered by calling the function.
-/

namespace ReactNotes

/-- The object literal `person.theme`: the two style fields it is written with. -/
structure Theme where
  backgroundColor : String
  color : String
deriving DecidableEq, Repr

/-- The object literal `person` of `04_JSX_with_Curly_Braces/App.js`. -/
structure Person where
  name : String
  imageId : String
  imageSize : String
  theme : Theme
deriving DecidableEq, Repr

/-- The value of a JSX attribute: a string, or a style object (`style={...}`). -/
inductive PropValue where
  | str (s : String)
  | style (t : Theme)
deriving DecidableEq, Repr

/-- A rendered JSX node: a piece of text, or an element with its tag, its
attributes in source order and its children in source order. -/
inductive Node where
  | text (s : String)
  | element (tag : String) (props : List (String × PropValue)) (children : List Node)
deriving Repr

/-- Tag of an element; a text node has none. -/
def Node.tag : Node → Option String
  | .text _ => none
  | .element t _ _ => some t

/-- Attributes of an element, in source order. -/
def Node.props : Node → List (String × PropValue)
  | .text _ => []
  | .element _ ps _ => ps

/-- Children of an element, in source order. -/
def Node.children : Node → List Node
  | .text _ => []
  | .element _ _ cs => cs

/-- Value of the attribute `key`, when the element carries it. -/
def Node.prop (n : Node) (key : String) : Option PropValue :=
  (n.props.find? (fun kv => kv.1 == key)).map Prod.snd

/-- String value of the attribute `key`. -/
def Node.strProp (n : Node) (key : String) : Option String :=
  match n.prop key with
  | some (.str s) => some s
  | _ => none

/-- Style object carried by the `style` attribute. -/
def Node.styleProp (n : Node) : Option Theme :=
  match n.prop "style" with
  | some (.style t) => some t
  | _ => none

/-- Content of a text node. -/
def Node.asText : Node → Option String
  | .text s => some s
  | .element _ _ _ => none

/-- Text of an element: its text children concatenated in order. -/
def Node.ownText (n : Node) : String :=
  String.join (n.children.filterMap Node.asText)

/-- First child element with the given tag. -/
def Node.childWithTag (n : Node) (tag : String) : Option Node :=
  n.children.find? (fun c => c.tag == some tag)

/-- The module constant `baseUrl`. -/
def baseUrl : String := "https://i.imgur.com/"

/-- The module constant `person`. -/
def person : Person :=
  { name := "Gregorio Y. Zara"
    imageId := "7vQD0fP"
    imageSize := "s"
    theme := { backgroundColor := "black", color := "pink" } }

/-- The component `TodoList` of `04_JSX_with_Curly_Braces/App.js`. The module
binding `person` that the body reads is the argument `p`. -/
def TodoList (p : Person) : Node :=
  .element "div" [("style", .style p.theme)]
    [ .element "h1" [] [.text p.name, .text "'s Todos"],
      .element "img"
        [ ("className", .str "avatar"),
          ("src", .str (baseUrl ++ p.imageId ++ p.imageSize ++ ".jpg")),
          ("alt", .str p.name) ]
        [],
      .element "ul" []
        [ .element "li" [] [.text "Improve the videophone"],
          .element "li" [] [.text "Prepare aeronautics lectures"],
          .element "li" [] [.text "Work on the alcohol-fuelled engine"] ] ]

/-- The component `Profile` of `First Component/App.js`. -/
def Profile : Node :=
  .element "img"
    [ ("src", .str "https://i.imgur.com/MK3eW3Am.jpg"),
      ("alt", .str "Katherine Johnson") ]
    []

/-- The component `Gallery` of `First Component/App.js`; each `<Profile />`
is the result of calling `Profile`. -/
def Gallery : Node :=
  .element "section" []
    [ .element "h1" [] [.text "Amazing scientists"],
      Profile,
      Profile,
      Profile ]

/-- Heading node of a tree: the `h1` child of the root. -/
def heading (t : Node) : Option Node := t.childWithTag "h1"

/-- Image node of a tree: the `img` child of the root. -/
def image (t : Node) : Option Node := t.childWithTag "img"

/-- List node of a tree: the `ul` child of the root. -/
def list (t : Node) : Option Node := t.childWithTag "ul"

/-- Items of a list node: the text of each `li` child, in order. -/
def items (l : Node) : List String :=
  (l.children.filter (fun c => c.tag == some "li")).map Node.ownText

/-- The `src` of the image node of a tree. -/
def imageSrc (t : Node) : Option String := (image t).bind (fun n => n.strProp "src")

/-- The `alt` of the image node of a tree. -/
def imageAlt (t : Node) : Option String := (image t).bind (fun n => n.strProp "alt")

/-- The `className` of the image node of a tree. -/
def imageClass (t : Node) : Option String := (image t).bind (fun n => n.strProp "className")

/-- Text of the heading node of a tree. -/
def headingText (t : Node) : Option String := (heading t).map Node.ownText

/-- Items of the list node of a tree. -/
def listItems (t : Node) : Option (List String) := (list t).map items

/-- All four fields of the record are non-empty strings. -/
def Person.nonEmpty (p : Person) : Prop :=
  p.name ≠ "" ∧ p.imageId ≠ "" ∧ p.imageSize ≠ "" ∧
    p.theme.backgroundColor ≠ "" ∧ p.theme.color ≠ ""

instance (p : Person) : Decidable p.nonEmpty := by
  unfold Person.nonEmpty; infer_instance

/-- State of the module `04_JSX_with_Curly_Braces/App.js` while it runs: the
object bound to `person`, and what `rootElement` currently shows inside the
`.root` container (nothing before the first `render`). The binding `baseUrl`
is a `const` string and cannot change, so it is not part of the state. -/
structure Module where
  person : Person
  mounted : Option Node

/-- A call `TodoList()` in a module state, as the source writes it: a function
of no argument whose body reads the binding `person` and the constant
`baseUrl`. It returns the tree together with the module state after the call. -/
def TodoList.call (m : Module) : Node × Module :=
  (.element "div" [("style", .style m.person.theme)]
    [ .element "h1" [] [.text m.person.name, .text "'s Todos"],
      .element "img"
        [ ("className", .str "avatar"),
          ("src", .str (baseUrl ++ m.person.imageId ++ m.person.imageSize ++ ".jpg")),
          ("alt", .str m.person.name) ]
        [],
      .element "ul" []
        [ .element "li" [] [.text "Improve the videophone"],
          .element "li" [] [.text "Prepare aeronautics lectures"],
          .element "li" [] [.text "Work on the alcohol-fuelled engine"] ] ],
   m)

/-! ## Theorems -/

/-- C1: the `src` of the image node of `TodoList` is the base URL followed by
`imageId`, `imageSize` and `.jpg`, in that order and with nothing in between;
for the sample record it is `https://i.imgur.com/7vQD0fPs.jpg`. -/
theorem TodoList_image_src :
    (∀ p : Person,
      imageSrc (TodoList p)
        = some ("https://i.imgur.com/" ++ p.imageId ++ p.imageSize ++ ".jpg")) ∧
    imageSrc (TodoList person) = some "https://i.imgur.com/7vQD0fPs.jpg" :=
  ⟨fun _ => rfl, by decide⟩

/-- C2: the text of the heading node of `TodoList` (the text children of the
`h1` concatenated) is the name followed by the possessive suffix, with no
whitespace added; for the sample record it is the name of Gregorio Y. Zara
followed by that suffix. -/
theorem TodoList_heading_text :
    (∀ p : Person, headingText (TodoList p) = some (p.name ++ "'s Todos")) ∧
    headingText (TodoList person) = some "Gregorio Y. Zara's Todos" := by
  refine ⟨fun p => ?_, by decide⟩
  simp [headingText, heading, TodoList, Node.childWithTag, Node.children, Node.tag,
    Node.ownText, Node.asText, String.join]

/-- C3: the image node of `TodoList` has `alt` equal to the name of the record
and `className` equal to `avatar`; for the sample record `alt` is
`Gregorio Y. Zara`. -/
theorem TodoList_image_alt_class :
    (∀ p : Person,
      imageAlt (TodoList p) = some p.name ∧ imageClass (TodoList p) = some "avatar") ∧
    imageAlt (TodoList person) = some "Gregorio Y. Zara" :=
  ⟨fun _ => ⟨rfl, rfl⟩, by decide⟩

/-- C4: the root of `TodoList` is a `div` whose only attribute is `style`, and
that style is the theme of the record unchanged; for the sample record it is
black background with pink text. -/
theorem TodoList_root_style :
    (∀ p : Person,
      (TodoList p).tag = some "div" ∧
      (TodoList p).props = [("style", PropValue.style p.theme)] ∧
      (TodoList p).styleProp = some p.theme) ∧
    (TodoList person).styleProp = some { backgroundColor := "black", color := "pink" } :=
  ⟨fun _ => ⟨rfl, rfl, rfl⟩, by decide⟩

/-- C5: the list node of `TodoList` has exactly the three fixed items, in the
order of the source, and the items are the same for any two records. -/
theorem TodoList_list_items :
    (∀ p : Person,
      listItems (TodoList p)
        = some ["Improve the videophone", "Prepare aeronautics lectures",
                "Work on the alcohol-fuelled engine"]) ∧
    (∀ p q : Person, list (TodoList p) = list (TodoList q)) ∧
    (∀ p q : Person, listItems (TodoList p) = listItems (TodoList q)) :=
  ⟨fun _ => rfl, fun _ _ => rfl, fun _ _ => rfl⟩

/-- C6: `Gallery` is a container with exactly four children in order: a
heading with text `Amazing scientists`, then three image nodes equal to one
another, each the output of `Profile`, with the fixed `src` and `alt`. -/
theorem Gallery_tree :
    Gallery.tag = some "section" ∧
    (∃ h i₁ i₂ i₃ : Node,
      Gallery.children = [h, i₁, i₂, i₃] ∧
      h.tag = some "h1" ∧ h.ownText = "Amazing scientists" ∧
      i₁ = Profile ∧ i₂ = Profile ∧ i₃ = Profile ∧ i₁ = i₂ ∧ i₂ = i₃) ∧
    Profile.tag = some "img" ∧
    Profile.children = [] ∧
    Profile.props
      = [("src", PropValue.str "https://i.imgur.com/MK3eW3Am.jpg"),
         ("alt", PropValue.str "Katherine Johnson")] ∧
    Profile.strProp "src" = some "https://i.imgur.com/MK3eW3Am.jpg" ∧
    Profile.strProp "alt" = some "Katherine Johnson" :=
  ⟨rfl, ⟨_, _, _, _, rfl, rfl, by decide, rfl, rfl, rfl, rfl, rfl⟩, rfl, rfl, rfl,
    by decide, by decide⟩

/-- C7: `TodoList` is total and validates nothing: every record, the one with
empty `imageId` and `imageSize` included, gives a tree whose image `src` is
the same concatenation; with both empty the `src` is `https://i.imgur.com/.jpg`. -/
theorem TodoList_total_no_validation :
    (∀ p : Person, ∃ t : Node, TodoList p = t ∧
      imageSrc t = some (baseUrl ++ p.imageId ++ p.imageSize ++ ".jpg")) ∧
    (∀ (n : String) (th : Theme),
      imageSrc (TodoList { name := n, imageId := "", imageSize := "", theme := th })
        = some "https://i.imgur.com/.jpg") :=
  ⟨fun p => ⟨TodoList p, rfl, rfl⟩, fun _ _ => rfl⟩

/-- C8: two calls of `TodoList` on the same record return equal trees, and the
tree depends on nothing but the record. For any two module states that hold
the same `person` record, whatever is mounted in either, the calls return the
same tree; a call leaves the module state as it found it, so a second call
made right after the first returns the same tree again; and the tree is the
one `TodoList` builds from the record alone. -/
theorem TodoList_call_depends_only_on_record (m₁ m₂ : Module)
    (h : m₁.person = m₂.person) :
    (TodoList.call m₁).1 = (TodoList.call m₂).1 ∧
    (TodoList.call m₁).2 = m₁ ∧
    (TodoList.call (TodoList.call m₁).2).1 = (TodoList.call m₁).1 ∧
    (TodoList.call m₁).1 = TodoList m₁.person := by
  refine ⟨?_, rfl, rfl, rfl⟩
  simp only [TodoList.call, h]

theorem TodoList_call_depends_only_on_record_witness :
    (Module.mk person none).person = (Module.mk person (some Gallery)).person ∧
    (Module.mk person none).mounted ≠ (Module.mk person (some Gallery)).mounted ∧
    (TodoList.call (Module.mk person none)).1
      = (TodoList.call (Module.mk person (some Gallery))).1 ∧
    (TodoList.call (Module.mk person none)).2 = Module.mk person none ∧
    (TodoList.call (TodoList.call (Module.mk person none)).2).1
      = (TodoList.call (Module.mk person none)).1 ∧
    (TodoList.call (Module.mk person none)).1 = TodoList person :=
  ⟨rfl, fun h => Option.noConfusion h,
    TodoList_call_depends_only_on_record (Module.mk person none)
      (Module.mk person (some Gallery)) rfl⟩

/-- C9: the root of `TodoList` has exactly three children, in this order: the
heading node, the image node, the list node. -/
theorem TodoList_root_children :
    ∀ p : Person, ∃ h i l : Node,
      (TodoList p).children = [h, i, l] ∧
      heading (TodoList p) = some h ∧ image (TodoList p) = some i ∧
      list (TodoList p) = some l ∧
      h.tag = some "h1" ∧ i.tag = some "img" ∧ l.tag = some "ul" :=
  fun _ => ⟨_, _, _, rfl, rfl, rfl, rfl, rfl, rfl, rfl⟩

/-- C10: the image URL does not determine its parts: two records, non-empty in
every field, with different `imageId` and `imageSize`, give the same `src`, so
the map from the pair to `src` is not injective. -/
theorem TodoList_src_not_injective :
    (∃ p q : Person, p.nonEmpty ∧ q.nonEmpty ∧
      p.imageId = "7vQD0fP" ∧ p.imageSize = "s" ∧
      q.imageId = "7vQD0f" ∧ q.imageSize = "Ps" ∧
      (p.imageId, p.imageSize) ≠ (q.imageId, q.imageSize) ∧
      imageSrc (TodoList p) = some "https://i.imgur.com/7vQD0fPs.jpg" ∧
      imageSrc (TodoList q) = some "https://i.imgur.com/7vQD0fPs.jpg") ∧
    ¬ Function.Injective (fun ids : String × String =>
        imageSrc (TodoList { person with imageId := ids.1, imageSize := ids.2 })) := by
  refine ⟨⟨person, { person with imageId := "7vQD0f", imageSize := "Ps" },
    by decide, by decide, rfl, rfl, rfl, rfl, by decide, by decide, by decide⟩, ?_⟩
  intro hinj
  have h := @hinj ("7vQD0fP", "s") ("7vQD0f", "Ps") (by decide)
  exact absurd h (by decide)

end ReactNotes
